import Mathlib

/-!
Verification of the `resolver-dns-native-windows` native shim of Netty.

The repository fragment contains the machine-generated JNI header
`netty_window_dns_native.h`, which declares exactly three exported entry
points: `Java_io_netty_resolver_dns_windows_WindowsAdapterInfo_adapters`,
`JNI_OnLoad` and `JNI_OnUnload`.  The C implementation bodies are not part
of the fragment, so the behaviour of the shim is modelled from the
specification; the exported surface itself is embedded directly from the
header.
-/

namespace NettyWindowsDns

/-- An adapter record as returned to the managed caller: an adapter
identifier and the ordered sequence of DNS server addresses configured on
that adapter (spec section 3, `AdapterInfo`). -/
structure AdapterInfo where
  name : String
  dnsAddresses : List String
deriving DecidableEq

/-- Modelled from the spec: a raw OS adapter record as the OS
enumeration yields it, before marshalling.  The implementation of the
enumeration is not in the repository fragment.  A record whose identifier
cannot be obtained (`rawName = none`) cannot be fully constructed and must
be omitted by the marshalling step. -/
structure RawAdapter where
  rawName : Option String
  rawDns : List String
deriving DecidableEq

/-- Modelled from the spec: the ambient OS state visible to one call of
`adapters()`.  `queryOk` is whether the OS adapter-enumeration call
succeeds, `marshalOk` is whether converting the enumerated data into the
caller-visible representation succeeds, and `rawAdapters` is the sequence
of adapter records the OS enumerates, in OS enumeration order. -/
structure OSEnv where
  queryOk : Bool
  marshalOk : Bool
  rawAdapters : List RawAdapter
deriving DecidableEq

/-- The two boundary-level failure kinds of `adapters()` (spec section 7). -/
inductive AdapterError where
  | OSQueryError
  | MarshalError
deriving DecidableEq

/-- Modelled from the spec: the marshalling step that converts enumerated
OS records into caller-visible `AdapterInfo` records, in enumeration
order; a record that cannot be fully constructed is omitted, never
returned partially populated. -/
def marshal : List RawAdapter → List AdapterInfo
  | [] => []
  | ⟨none, _⟩ :: rs => marshal rs
  | ⟨some n, d⟩ :: rs => ⟨n, d⟩ :: marshal rs

/-- Modelled from the spec: the body of
`Java_io_netty_resolver_dns_windows_WindowsAdapterInfo_adapters` is not in
the repository fragment (the header only declares it).  The call queries
the OS for the current adapter set and marshals it; it fails with
`OSQueryError` if the OS enumeration fails, with `MarshalError` if the
conversion fails, and otherwise returns the marshalled sequence. -/
def adapters (env : OSEnv) : Except AdapterError (List AdapterInfo) :=
  if env.queryOk then
    if env.marshalOk then
      Except.ok (marshal env.rawAdapters)
    else
      Except.error AdapterError.MarshalError
  else
    Except.error AdapterError.OSQueryError

/-- Modelled from the spec: one invocation of `adapters()` viewed together
with the rest of the process state `g` (of arbitrary type `σ`): the call
produces its result from the ambient OS state alone and leaves the process
state untouched ("no global state mutated"). -/
def adaptersCall {σ : Type} (g : σ) (env : OSEnv) :
    Except AdapterError (List AdapterInfo) × σ :=
  (adapters env, g)

/-- The module lifecycle states of the shim (spec section 4.1:
`Unloaded → Loaded → Unloaded`). -/
inductive ModuleState where
  | unloaded
  | loaded
deriving DecidableEq

/-- The JNI interface-version constant `JNI_VERSION_1_6` (`0x00010006`)
that `JNI_OnLoad` reports to the host on success. -/
def JNI_VERSION_1_6 : Int := 65542

/-- The JNI failure status `JNI_ERR` (`-1`); returning it from
`JNI_OnLoad` aborts module load. -/
def JNI_ERR : Int := -1

/-- Modelled from the spec: the body of `JNI_OnLoad` is not in the
repository fragment (the header only declares it).  `initOk` is whether
the one-time native initialization succeeds; the function returns the
`jint` status handed to the host together with the resulting module
state.  On success the status is the required interface version; on
failure the status is `JNI_ERR`, which is fatal: the host aborts module
load and the module stays unloaded. -/
def JNI_OnLoad (initOk : Bool) : Int × ModuleState :=
  if initOk then
    (JNI_VERSION_1_6, ModuleState.loaded)
  else
    (JNI_ERR, ModuleState.unloaded)

/-- The failure a best-effort cleanup step may encounter internally. -/
inductive UnloadError where
  | cleanupFailed
deriving DecidableEq

/-- Modelled from the spec: the internal resource-release step of
`JNI_OnUnload`, which may itself fail (`cleanupOk = false`). -/
def releaseResources (_st : ModuleState) (cleanupOk : Bool) :
    Except UnloadError ModuleState :=
  if cleanupOk then Except.ok ModuleState.unloaded
  else Except.error UnloadError.cleanupFailed

/-- Modelled from the spec: the body of `JNI_OnUnload` is not in the
repository fragment (the header only declares it).  It releases resources
best-effort: an internal cleanup failure is swallowed, and the hook always
terminates normally in the unloaded state, whatever module state the
preceding `JNI_OnLoad` left behind.  Its C return type is `void`, so no
failure can be propagated to the host. -/
def JNI_OnUnload (st : ModuleState) (cleanupOk : Bool) : ModuleState :=
  match releaseResources st cleanupOk with
  | Except.ok st' => st'
  | Except.error _ => ModuleState.unloaded

/-- The native types appearing in the signatures declared by
`netty_window_dns_native.h`. -/
inductive JType where
  | jobject
  | jint
  | jvoid
  | jenvPtr
  | jclassT
  | javaVMPtr
  | voidPtr
deriving DecidableEq

/-- One exported function as declared in the header: its linker-visible
name, parameter types and return type. -/
structure ExportedFunction where
  name : String
  params : List JType
  ret : JType
deriving DecidableEq

/-- The complete list of entry points exported by
`netty_window_dns_native.h`, transcribed declaration by declaration:
`Java_io_netty_resolver_dns_windows_WindowsAdapterInfo_adapters
(JNIEnv*, jclass) -> jobject`, `JNI_OnLoad (JavaVM*, void*) -> jint`,
`JNI_OnUnload (JavaVM*, void*) -> void`. -/
def nettyWindowDnsNativeExports : List ExportedFunction :=
  [ ⟨"Java_io_netty_resolver_dns_windows_WindowsAdapterInfo_adapters",
      [JType.jenvPtr, JType.jclassT], JType.jobject⟩,
    ⟨"JNI_OnLoad", [JType.javaVMPtr, JType.voidPtr], JType.jint⟩,
    ⟨"JNI_OnUnload", [JType.javaVMPtr, JType.voidPtr], JType.jvoid⟩ ]

/-- Helper: the sequence of names of the marshalled records is exactly the
sequence of obtainable raw identifiers, in enumeration order. -/
theorem marshal_map_name (rs : List RawAdapter) :
    (marshal rs).map AdapterInfo.name = rs.filterMap RawAdapter.rawName := by
  induction rs with
  | nil => rfl
  | cons r rs ih =>
    obtain ⟨nm, d⟩ := r
    cases nm with
    | none => simpa [marshal] using ih
    | some n => simpa [marshal] using ih

/-- Helper: every marshalled record stems from a fully constructible raw
record, with the same identifier and the same DNS list. -/
theorem mem_marshal (rs : List RawAdapter) (a : AdapterInfo)
    (ha : a ∈ marshal rs) :
    ∃ r ∈ rs, r.rawName = some a.name ∧ a.dnsAddresses = r.rawDns := by
  induction rs with
  | nil => simp [marshal] at ha
  | cons r rs ih =>
    obtain ⟨nm, d⟩ := r
    cases nm with
    | none =>
      obtain ⟨r', hr', h'⟩ := ih (by simpa [marshal] using ha)
      exact ⟨r', List.mem_cons_of_mem _ hr', h'⟩
    | some n =>
      rw [marshal] at ha
      rcases List.mem_cons.mp ha with h | h
      · subst h
        exact ⟨⟨some n, d⟩, List.mem_cons_self _ _, rfl, rfl⟩
      · obtain ⟨r', hr', h'⟩ := ih h
        exact ⟨r', List.mem_cons_of_mem _ hr', h'⟩

/-- Helper: inversion of a successful `adapters()` call: both the OS query
and the marshalling succeeded and the result is the marshalled raw list. -/
theorem adapters_ok_inv (env : OSEnv) (l : List AdapterInfo)
    (h : adapters env = Except.ok l) :
    env.queryOk = true ∧ env.marshalOk = true ∧ l = marshal env.rawAdapters := by
  cases hq : env.queryOk with
  | false => simp [adapters, hq] at h
  | true =>
    cases hm : env.marshalOk with
    | false => simp [adapters, hq, hm] at h
    | true =>
      refine ⟨rfl, rfl, ?_⟩
      simpa [adapters, hq, hm] using h.symm

/-- Claim C1: if the OS adapter-enumeration query or the marshalling step
fails during a call to `adapters()`, the call fails atomically with
`OSQueryError` or `MarshalError` respectively and returns no result at
all: in particular no list — not even the empty one — is ever returned,
so the failure outcome is distinguishable from a successful empty list. -/
theorem adapters_failure_atomic (env : OSEnv)
    (hfail : env.queryOk = false ∨ env.marshalOk = false) :
    (env.queryOk = false →
      adapters env = Except.error AdapterError.OSQueryError) ∧
    (env.queryOk = true →
      adapters env = Except.error AdapterError.MarshalError) ∧
    (∀ l : List AdapterInfo, adapters env ≠ Except.ok l) := by
  refine ⟨?_, ?_, ?_⟩
  · intro hq
    simp [adapters, hq]
  · intro hq
    rcases hfail with h | h
    · rw [hq] at h
      exact absurd h (by simp)
    · simp [adapters, hq, h]
  · intro l hok
    obtain ⟨hq, hm, _⟩ := adapters_ok_inv env l hok
    rcases hfail with h | h
    · rw [hq] at h
      exact absurd h (by simp)
    · rw [hm] at h
      exact absurd h (by simp)

/-- Witness for C1: with the OS query failing, `adapters()` returns
`OSQueryError` and in particular not the empty list. -/
theorem adapters_failure_atomic_witness :
    adapters (OSEnv.mk false true []) =
      Except.error AdapterError.OSQueryError ∧
    adapters (OSEnv.mk false true []) ≠ Except.ok [] :=
  ⟨(adapters_failure_atomic (OSEnv.mk false true []) (Or.inl rfl)).1 rfl,
   (adapters_failure_atomic (OSEnv.mk false true []) (Or.inl rfl)).2.2 []⟩

/-- Claim C2: for every successful call to `adapters()` (given that the OS
enumeration reports each adapter identifier at most once), the returned
sequence contains no two entries with the same adapter identifier. -/
theorem adapters_no_duplicate_names (env : OSEnv)
    (hnd : (env.rawAdapters.filterMap RawAdapter.rawName).Nodup)
    (l : List AdapterInfo) (h : adapters env = Except.ok l) :
    (l.map AdapterInfo.name).Nodup := by
  obtain ⟨_, _, hl⟩ := adapters_ok_inv env l h
  rw [hl, marshal_map_name]
  exact hnd

/-- Witness for C2: a concrete successful call with two distinct adapters
yields a duplicate-free name sequence. -/
theorem adapters_no_duplicate_names_witness :
    (([⟨"Ethernet0", ["8.8.8.8", "8.8.4.4"]⟩, ⟨"Wi-Fi", []⟩] :
        List AdapterInfo).map AdapterInfo.name).Nodup :=
  adapters_no_duplicate_names
    (OSEnv.mk true true
      [⟨some "Ethernet0", ["8.8.8.8", "8.8.4.4"]⟩, ⟨some "Wi-Fi", []⟩])
    (by decide)
    [⟨"Ethernet0", ["8.8.8.8", "8.8.4.4"]⟩, ⟨"Wi-Fi", []⟩]
    rfl

/-- Claim C3: for every successful call to `adapters()`, every entry of
the returned sequence is fully constructed: its identifier is exactly the
(present) identifier of a raw OS record and its (possibly empty) DNS
sequence is exactly that record's DNS list; a record that cannot be fully
constructed never contributes a partially populated entry. -/
theorem adapters_fully_constructed (env : OSEnv) (l : List AdapterInfo)
    (h : adapters env = Except.ok l) :
    ∀ a ∈ l, ∃ r ∈ env.rawAdapters,
      r.rawName = some a.name ∧ a.dnsAddresses = r.rawDns := by
  obtain ⟨_, _, hl⟩ := adapters_ok_inv env l h
  intro a ha
  exact mem_marshal env.rawAdapters a (hl ▸ ha)

/-- Witness for C3: in a concrete successful call whose OS state holds one
constructible and one unconstructible record, the single returned entry is
fully constructed from the constructible record. -/
theorem adapters_fully_constructed_witness :
    ∃ r ∈ (OSEnv.mk true true
        [⟨some "Ethernet0", ["8.8.8.8", "8.8.4.4"]⟩,
         ⟨none, ["1.1.1.1"]⟩]).rawAdapters,
      r.rawName = some (AdapterInfo.mk "Ethernet0" ["8.8.8.8", "8.8.4.4"]).name ∧
      (AdapterInfo.mk "Ethernet0" ["8.8.8.8", "8.8.4.4"]).dnsAddresses = r.rawDns :=
  adapters_fully_constructed
    (OSEnv.mk true true
      [⟨some "Ethernet0", ["8.8.8.8", "8.8.4.4"]⟩, ⟨none, ["1.1.1.1"]⟩])
    [⟨"Ethernet0", ["8.8.8.8", "8.8.4.4"]⟩]
    rfl
    (AdapterInfo.mk "Ethernet0" ["8.8.8.8", "8.8.4.4"])
    (List.mem_singleton.mpr rfl)

/-- Claim C4: two consecutive calls to `adapters()` between which the
ambient OS adapter configuration does not change return equal results (the
second call starts from whatever process state the first call left
behind); each call is stateless, so the result depends only on the OS
configuration. -/
theorem adapters_idempotent {σ : Type} (g : σ) (env : OSEnv) :
    (adaptersCall (adaptersCall g env).2 env).1 = (adaptersCall g env).1 :=
  rfl

/-- Claim C5: for every successful call to `adapters()`, the order of the
returned sequence equals the OS enumeration order of the constructible
records: the name sequence of the result is exactly the identifier
sequence the OS enumerated, with no re-sorting. -/
theorem adapters_preserves_os_order (env : OSEnv) (l : List AdapterInfo)
    (h : adapters env = Except.ok l) :
    l.map AdapterInfo.name = env.rawAdapters.filterMap RawAdapter.rawName := by
  obtain ⟨_, _, hl⟩ := adapters_ok_inv env l h
  rw [hl, marshal_map_name]

/-- Witness for C5: a concrete successful call returns its entries in the
same order the OS enumerated them. -/
theorem adapters_preserves_os_order_witness :
    (([⟨"Wi-Fi", []⟩, ⟨"Ethernet0", ["8.8.8.8"]⟩] :
        List AdapterInfo).map AdapterInfo.name) =
      (([⟨some "Wi-Fi", []⟩, ⟨some "Ethernet0", ["8.8.8.8"]⟩] :
          List RawAdapter).filterMap RawAdapter.rawName) :=
  adapters_preserves_os_order
    (OSEnv.mk true true [⟨some "Wi-Fi", []⟩, ⟨some "Ethernet0", ["8.8.8.8"]⟩])
    [⟨"Wi-Fi", []⟩, ⟨"Ethernet0", ["8.8.8.8"]⟩]
    rfl

/-- Claim C6: when the OS reports zero network adapters (and neither the
query nor the marshalling fails), `adapters()` succeeds and returns the
empty sequence — a success outcome, not a failure. -/
theorem adapters_empty_success (env : OSEnv)
    (hq : env.queryOk = true) (hm : env.marshalOk = true)
    (h0 : env.rawAdapters = []) :
    adapters env = Except.ok [] := by
  simp [adapters, hq, hm, h0, marshal]

/-- Witness for C6: the concrete zero-adapter OS state yields a
successful empty result. -/
theorem adapters_empty_success_witness :
    adapters (OSEnv.mk true true []) = Except.ok [] :=
  adapters_empty_success (OSEnv.mk true true []) rfl rfl rfl

/-- Claim C7: `JNI_OnLoad` returns a status to the host: on success the
required interface version, and when its one-time initialization cannot
succeed the distinct fatal status `JNI_ERR`, aborting module load (the
module stays unloaded). -/
theorem JNI_OnLoad_status_contract :
    (JNI_OnLoad true).1 = JNI_VERSION_1_6 ∧
    (JNI_OnLoad true).2 = ModuleState.loaded ∧
    (JNI_OnLoad false).1 = JNI_ERR ∧
    (JNI_OnLoad false).2 = ModuleState.unloaded ∧
    JNI_ERR ≠ JNI_VERSION_1_6 := by
  refine ⟨rfl, rfl, rfl, rfl, ?_⟩
  decide

/-- Claim C8: `JNI_OnUnload` never propagates a failure to the host: from
any module state — including the unloaded state a failed `JNI_OnLoad`
leaves behind — and even when its internal cleanup step fails, it
terminates normally in the unloaded state (its C return type is `void`,
so no error can reach the host). -/
theorem JNI_OnUnload_safe (st : ModuleState) (cleanupOk : Bool) :
    JNI_OnUnload st cleanupOk = ModuleState.unloaded ∧
    JNI_OnUnload (JNI_OnLoad false).2 false = ModuleState.unloaded := by
  constructor
  · cases cleanupOk <;> rfl
  · rfl

/-- Claim C9: a call to `adapters()` mutates no global or shared process
state: for every type of process state and every value of it, the state
after the call equals the state before, whether the call succeeds or
fails. -/
theorem adapters_frame (σ : Type) (g : σ) (env : OSEnv) :
    (adaptersCall g env).2 = g :=
  rfl

/-- Claim C10: the native boundary of `netty_window_dns_native.h` exports
exactly three entry points: the static-method binding
`Java_io_netty_resolver_dns_windows_WindowsAdapterInfo_adapters`, taking
only the runtime environment handle and a class reference (no
caller-supplied data) and returning a single object reference, plus the
two lifecycle hooks `JNI_OnLoad` (returning `jint`) and `JNI_OnUnload`
(returning `void`); nothing else is exported. -/
theorem exports_exactly_three :
    nettyWindowDnsNativeExports.map ExportedFunction.name =
      ["Java_io_netty_resolver_dns_windows_WindowsAdapterInfo_adapters",
       "JNI_OnLoad", "JNI_OnUnload"] ∧
    (∀ f ∈ nettyWindowDnsNativeExports,
      f.name = "Java_io_netty_resolver_dns_windows_WindowsAdapterInfo_adapters" →
        f.params = [JType.jenvPtr, JType.jclassT] ∧ f.ret = JType.jobject) ∧
    (∀ f ∈ nettyWindowDnsNativeExports,
      f.name = "JNI_OnLoad" →
        f.params = [JType.javaVMPtr, JType.voidPtr] ∧ f.ret = JType.jint) ∧
    (∀ f ∈ nettyWindowDnsNativeExports,
      f.name = "JNI_OnUnload" →
        f.params = [JType.javaVMPtr, JType.voidPtr] ∧ f.ret = JType.jvoid) := by
  refine ⟨rfl, ?_, ?_, ?_⟩ <;> decide

end NettyWindowsDns
